import Mathlib

/-!
Shallow embedding of the stateful synchronization and command-bridge engine of
risco-mqtt-local (src/lib/risco-mqtt-local.ts), covering the arming retry
state machine, the alarm state projection, the arming-mode configuration
merge, the connection readiness gate and the error classifier.
-/

namespace RiscoMqtt

/-! String helpers modelling the JavaScript operations used by the source. -/

/-- Tests whether the second list is a leading segment of the first argument
order: `startsWithChars needle hay` is true when `hay` begins with `needle`. -/
def startsWithChars : List Char → List Char → Bool
  | [], _ => true
  | _ :: _, [] => false
  | a :: as, b :: bs => a == b && startsWithChars as bs

/-- Substring search on character lists, structural on the haystack. -/
def containsChars : List Char → List Char → Bool
  | [], needle => needle.isEmpty
  | a :: t, needle => startsWithChars needle (a :: t) || containsChars t needle

/-- Model of the JavaScript method `s.includes(sub)`. -/
def jsIncludes (s sub : String) : Bool :=
  containsChars s.data sub.data

/-- Model of `code.substr(code.length - 1)`: the last character of a string,
with a default for the empty string (never reached by the source call sites). -/
def lastCharD (s : String) (d : Char) : Char :=
  s.data.getLastD d

/-! The arming retry state machine (risco-mqtt-local.ts lines 208-220,
369-426, 1231-1261).  The module-level mutable bindings
`awaitPartitionReady`, `partitionDetailId`, `partitionDetailType`,
`armingTimer` and the tracked array `partitionReadyStatus` become fields of
`SysState`; live `setTimeout` handles become the `timers` list, each entry a
pair of a fresh token and the delay in milliseconds. -/

/-- Device action calls made on the risco-lan-bridge panel object. -/
inductive ArmAction where
  | disarmPart (partId : Nat)
  | armHome (partId : Nat)
  | armAway (partId : Nat)
  | armGroup (partId : Nat) (group : Option Nat)
  deriving Repr, DecidableEq

/-- Source `groupLetterToNumber` (lines 369-379): letters A-D map to 1-4 and
every other character yields `undefined`, modelled as `none`. -/
def groupLetterToNumber (letter : Char) : Option Nat :=
  if letter = 'A' then some 1
  else if letter = 'B' then some 2
  else if letter = 'C' then some 3
  else if letter = 'D' then some 4
  else none

/-- The mutable bridge state read and written by `changeAlarmStatus` and
`partitionListener`.  `partitionReadyStatus n` models the check
`partitionReadyStatus[n] === true`: it is false until a `Ready` event for
partition `n` is processed (the objects pushed at discovery, line 897, never
satisfy the strict equality with `true`). -/
structure SysState where
  awaitPartitionReady : Bool
  partitionDetailId : Option Nat
  partitionDetailType : Option String
  armingTimer : Bool
  partitionReadyStatus : Nat → Bool
  timers : List (Nat × Nat)
  nextTimer : Nat

/-- Source `changeAlarmStatus` (lines 381-426).  The switch statement has no
break: in the `armed_home` case with the partition not ready, control falls
through into the `armed_away` case, which calls `panel.armAway`.  For codes
containing `group` the letter is taken from the last character and the code
is rewritten to `armed_group` before being stored. -/
def changeAlarmStatus (code0 : String) (partId : Nat) (s : SysState) :
    SysState × List ArmAction :=
  let hasGroup := jsIncludes code0 "group"
  let letter := if hasGroup then lastCharD code0 'A' else 'A'
  let code := if hasGroup then "armed_group" else code0
  let group := groupLetterToNumber letter
  if code = "disarmed" then
    (s, [ArmAction.disarmPart partId])
  else if code = "armed_home" then
    if s.partitionReadyStatus partId then
      (s, [ArmAction.armHome partId])
    else
      ({ s with awaitPartitionReady := true,
                partitionDetailId := some partId,
                partitionDetailType := some code },
       -- no break: execution continues into the armed_away case
       [ArmAction.armAway partId])
  else if code = "armed_away" then
    (s, [ArmAction.armAway partId])
  else if code = "armed_group" then
    if s.partitionReadyStatus partId then
      (s, [ArmAction.armGroup partId group])
    else
      ({ s with awaitPartitionReady := true,
                partitionDetailId := some partId,
                partitionDetailType := some code },
       [])
  else
    (s, [])

/-- Observable effects of the partition event path: device action calls and
the three partition publish calls of the source. -/
inductive OutMsg where
  | armAction (a : ArmAction)
  | publishAlarmState (partId : Nat)
  | publishArming (partId : Nat)
  | publishPartStatus (partId : Nat)
  deriving Repr, DecidableEq

/-- The alarm state events handled by the first branch of
`partitionListener` (line 1232). -/
def stateChangeEvents : List String :=
  ["Armed", "Disarmed", "HomeStay", "HomeDisarmed", "Alarm", "StandBy",
   "GrpAArmed", "GrpBArmed", "GrpCArmed", "GrpDArmed",
   "GrpADisarmed", "GrpBDisarmed", "GrpCDisarmed", "GrpDDisarmed"]

/-- The delay passed to `setTimeout` for the arming retry (line 1255). -/
def armingTimeoutMs : Nat := 30000

/-- Source `partitionListener` (lines 1231-1261).  On `Ready` the tracked
status is set, and when a request is outstanding `clearTimeout(partitionwait)`
is executed on the local `partitionwait` declared fresh in this invocation,
so no pending timer is ever cancelled; `changeAlarmStatus` is then re-invoked
with the stored code and id, after which both flags are cleared.  On
`NotReady` the tracked status is cleared, the transient arming status is
published unconditionally, and a 30 second timer is started when a request is
outstanding and no timer flag is set. -/
def partitionListener (Id : Nat) (EventStr : String) (s : SysState) :
    SysState × List OutMsg :=
  let out1 := if stateChangeEvents.contains EventStr
    then [OutMsg.publishAlarmState Id] else []
  if EventStr = "Ready" ∨ EventStr = "NotReady" then
    let out2 := out1 ++ [OutMsg.publishPartStatus Id]
    if EventStr = "Ready" then
      let s := { s with partitionReadyStatus :=
        fun n => if n = Id then true else s.partitionReadyStatus n }
      if s.awaitPartitionReady then
        -- clearTimeout(partitionwait) clears a fresh local: timers unchanged
        let r := changeAlarmStatus (s.partitionDetailType.getD "")
          (s.partitionDetailId.getD 0) s
        ({ r.1 with awaitPartitionReady := false, armingTimer := false },
         out2 ++ r.2.map OutMsg.armAction)
      else
        (s, out2)
    else
      let s := { s with partitionReadyStatus :=
        fun n => if n = Id then false else s.partitionReadyStatus n }
      let out3 := out2 ++ [OutMsg.publishArming Id]
      if s.awaitPartitionReady && !s.armingTimer then
        ({ s with armingTimer := true,
                  timers := s.timers ++ [(s.nextTimer, armingTimeoutMs)],
                  nextTimer := s.nextTimer + 1 },
         out3)
      else
        (s, out3)
  else
    (s, out1)

/-- Firing of a pending retry timer: the callback of line 1252-1255 clears
the awaiting and timer flags; the fired handle stops being live. -/
def fireTimer (tok : Nat) (s : SysState) : SysState :=
  if s.timers.any (fun t => t.1 == tok) then
    { s with timers := s.timers.filter (fun t => t.1 != tok),
             awaitPartitionReady := false,
             armingTimer := false }
  else s

/-- Events driving the retry machine: an inbound alarm set command for a
partition, a partition status event from the panel, and the expiry of a
pending timer. -/
inductive Ev where
  | armCmd (code : String) (partId : Nat)
  | pEvent (partId : Nat) (eventStr : String)
  | timerFire (tok : Nat)
  deriving Repr, DecidableEq

/-- One step of the sequential callback queue. -/
def step (s : SysState) (e : Ev) : SysState × List OutMsg :=
  match e with
  | Ev.armCmd code partId =>
      let r := changeAlarmStatus code partId s
      (r.1, r.2.map OutMsg.armAction)
  | Ev.pEvent partId eventStr => partitionListener partId eventStr s
  | Ev.timerFire tok => (fireTimer tok s, [])

/-- The initial bridge state: no request outstanding, no timer, and no
partition whose tracked status passes the strict `=== true` check. -/
def initSys : SysState :=
  { awaitPartitionReady := false
    partitionDetailId := none
    partitionDetailType := none
    armingTimer := false
    partitionReadyStatus := fun _ => false
    timers := []
    nextTimer := 0 }

/-- Run of an event list from the initial state, accumulating the
observable outputs in order. -/
def runSys (es : List Ev) : SysState × List OutMsg :=
  es.foldl (fun acc e => let r := step acc.1 e; (r.1, acc.2 ++ r.2))
    (initSys, [])

/-! The partition entity and the alarm state projection
(risco-mqtt-local.ts lines 95-105, 428-470). -/

/-- Partition status fields read by the projection, from the risco-lan-bridge
entity registry. -/
structure Partition where
  Id : Nat
  Label : String
  Arm : Bool
  HomeStay : Bool
  GrpAArm : Bool
  GrpBArm : Bool
  GrpCArm : Bool
  GrpDArm : Bool
  Alarm : Bool
  Ready : Bool
  deriving Repr, DecidableEq

/-- Source `returnPanelAlarmState` (lines 428-447): an if chain over the six
native arm flags; when none is set the function falls off the end and returns
`undefined`, modelled as `none`. -/
def returnPanelAlarmState (p : Partition) : Option String :=
  if p.Arm then some "armed_away"
  else if p.HomeStay then some "armed_home"
  else if p.GrpAArm then some "armed_group_A"
  else if p.GrpBArm then some "armed_group_B"
  else if p.GrpCArm then some "armed_group_C"
  else if p.GrpDArm then some "armed_group_D"
  else none

/-- The per-partition arming mode record (interface `ArmingModes`,
lines 99-105): all five canonical keys present. -/
structure ArmingModes where
  armed_away : String
  armed_home : String
  armed_night : String
  armed_vacation : String
  armed_custom_bypass : String
  deriving Repr, DecidableEq

/-- The key and value pairs of an `ArmingModes` record in the object key
insertion order used at construction (lines 909-916), which is also the
iteration order of `Object.keys` at line 465. -/
def armingPairs (m : ArmingModes) : List (String × String) :=
  [("armed_away", m.armed_away),
   ("armed_home", m.armed_home),
   ("armed_night", m.armed_night),
   ("armed_vacation", m.armed_vacation),
   ("armed_custom_bypass", m.armed_custom_bypass)]

/-- The reverse lookup of lines 465-467:
`Object.keys(mapping).find(key => mapping[key] === panelState)`. -/
def reverseArmingLookup (m : ArmingModes) (panelState : Option String) :
    Option String :=
  ((armingPairs m).find? (fun kv => some kv.2 == panelState)).map
    (fun kv => kv.1)

/-- Source `alarmPayload` (lines 449-470), with the arming mode record of the
partition passed explicitly in place of the `alarmMapping` global slice.
A result of `none` models the `undefined` payload of a failed reverse
lookup. -/
def alarmPayload (p : Partition) (m : ArmingModes) : Option String :=
  if p.Alarm then some "triggered"
  else if !p.Arm && !p.HomeStay && !p.GrpAArm && !p.GrpBArm
          && !p.GrpCArm && !p.GrpDArm then some "disarmed"
  else reverseArmingLookup m (returnPanelAlarmState p)

/-- Reformulation used only to compare against `returnPanelAlarmState`: the
six native flags with their payloads in the fixed priority order away,
home-stay, group A, group B, group C, group D. -/
def nativePriorityPairs (p : Partition) : List (Bool × String) :=
  [(p.Arm, "armed_away"), (p.HomeStay, "armed_home"),
   (p.GrpAArm, "armed_group_A"), (p.GrpBArm, "armed_group_B"),
   (p.GrpCArm, "armed_group_C"), (p.GrpDArm, "armed_group_D")]

/-! The arming mode configuration merge (lines 87-105, 142-152, 900-920).
The README documents per partition overrides directly under
`arming_modes.<label>`, and line 904 reads `config.arming_modes?.[label]`;
the defaults live under `arming_modes.partition.default` (line 903). -/

/-- The partial override record (interface `ArmingConfig`, lines 87-93):
every field optional; an absent field is `undefined` and is skipped by
lodash `merge`. -/
structure ArmingConfig where
  armed_away : Option String := none
  armed_home : Option String := none
  armed_night : Option String := none
  armed_vacation : Option String := none
  armed_custom_bypass : Option String := none
  deriving Repr, DecidableEq

/-- Lodash `merge(cloneDeep(dst), src)` on these flat records: a source field
that is defined overwrites the destination field, an `undefined` source field
or an `undefined` source object leaves the destination unchanged. -/
def mergeArming (dst : ArmingModes) (src : Option ArmingConfig) : ArmingModes :=
  match src with
  | none => dst
  | some o =>
    { armed_away := o.armed_away.getD dst.armed_away
      armed_home := o.armed_home.getD dst.armed_home
      armed_night := o.armed_night.getD dst.armed_night
      armed_vacation := o.armed_vacation.getD dst.armed_vacation
      armed_custom_bypass := o.armed_custom_bypass.getD dst.armed_custom_bypass }

/-- The `arming_modes` part of the merged configuration:
`partitionDefault` is `config.arming_modes.partition.default` after the
defaults merge of line 169, and `labelOverride L` is the per partition
record `config.arming_modes[L]` in the README configuration format, absent
when the user configured none. -/
structure ArmingModesSection where
  partitionDefault : ArmingModes
  labelOverride : String → Option ArmingConfig

/-- Lines 903-904: the arming record installed for a partition label at
discovery time,
`merge(cloneDeep(config.arming_modes.partition.default), config.arming_modes?.[label])`. -/
def installedArmingModes (c : ArmingModesSection) (label : String) :
    ArmingModes :=
  mergeArming c.partitionDefault (c.labelOverride label)

/-! The connection readiness gate (lines 208-213, 227-278, 1345-1440).
Discovery publication and listener installation are modelled as counters so
that their multiplicity over a run is provable. -/

/-- The process wide link flags together with counters of the guarded side
effects. -/
structure GateState where
  panelReady : Bool
  mqttReady : Bool
  listenerInstalled : Bool
  socketListeners : Bool
  initialized : Bool
  installCount : Nat
  discoveryCount : Nat
  deriving Repr, DecidableEq

/-- Source `panelOrMqttConnected` (lines 1345-1440): early return unless both
links are up; discovery publication only when `initialized` is still false;
the command topic and device event subscriptions only when
`listenerInstalled` is still false; `listenerInstalled` is then set (line
1418) and never cleared anywhere in the source; the socket level listeners
are installed when `socketListeners` is false; finally `initialized` is set
(line 1438). -/
def panelOrMqttConnected (s : GateState) : GateState :=
  if !s.panelReady then s
  else if !s.mqttReady then s
  else
    let s1 := if !s.initialized
      then { s with discoveryCount := s.discoveryCount + 1 } else s
    let s2 := if !s1.listenerInstalled
      then { s1 with installCount := s1.installCount + 1 } else s1
    let s3 := { s2 with listenerInstalled := true }
    let s4 := if !s3.socketListeners
      then { s3 with socketListeners := true } else s3
    { s4 with initialized := true }

/-- Link lifecycle events: panel `SystemInitComplete` (line 227), the tcp
socket `Disconnected` callback registered there (lines 228-232), the mqtt
client `connect` callback (line 253), and the mqtt `disconnect`, `close` and
`error` callbacks (lines 265-278), which all clear `mqttReady`. -/
inductive GateEv where
  | systemInitComplete
  | tcpDisconnected
  | mqttConnect
  | mqttDown
  deriving Repr, DecidableEq

/-- One connection lifecycle callback. -/
def stepGate (s : GateState) (e : GateEv) : GateState :=
  match e with
  | GateEv.systemInitComplete =>
      if !s.panelReady then panelOrMqttConnected { s with panelReady := true }
      else s
  | GateEv.tcpDisconnected =>
      { s with panelReady := false, socketListeners := false }
  | GateEv.mqttConnect =>
      if !s.mqttReady then panelOrMqttConnected { s with mqttReady := true }
      else s
  | GateEv.mqttDown => { s with mqttReady := false }

/-- The module initial state of lines 208-213. -/
def initGate : GateState :=
  { panelReady := false
    mqttReady := false
    listenerInstalled := false
    socketListeners := false
    initialized := false
    installCount := 0
    discoveryCount := 0 }

/-- Run of the gate over a list of lifecycle events. -/
def runGate (es : List GateEv) : GateState :=
  es.foldl stepGate initGate

/-! The error classifier (lines 1295-1343). -/

/-- The mutable flags read and written by `errorListener`. -/
structure ErrState where
  panelReady : Bool
  reconnecting : Bool
  socketListeners : Bool
  deriving Repr, DecidableEq

/-- Calls made by the error path.  `connectCall` stands for any call that
would itself re-establish the device link; it is part of the vocabulary so
that its absence from every branch is statable. -/
inductive ErrOut where
  | publishPanelStatusCall (up : Bool)
  | publishStateCall (up : Bool)
  | socketDisconnectCmd
  | removeSocketListenersCall
  | connectCall
  deriving Repr, DecidableEq

/-- Source `socketDisconnected` (lines 546-559) at a truthy socket argument
as called from the error path: with the panel ready the pending reconnect
timer is cleared, otherwise the socket is disconnected, the socket listeners
are removed and the offline state is published. -/
def socketDisconnected (socket : Bool) (s : ErrState) :
    ErrState × List ErrOut :=
  if s.panelReady then ({ s with reconnecting := false }, [])
  else if socket then
    ({ s with socketListeners := false },
     [ErrOut.socketDisconnectCmd, ErrOut.removeSocketListenersCall,
      ErrOut.publishStateCall false])
  else (s, [])

/-- Source `errorListener` (lines 1295-1334).  The check at line 1320 is
`data.includes('Cloud socket Closed' || ... )`: the string disjunction
evaluates to its first operand, so only `Cloud socket Closed` is tested.
`EHOSTUNREACH` clears `panelReady` and sets `reconnecting`;
`ECONNRESET` sets `reconnecting` and removes the socket listeners without
touching `panelReady`; unrecognized data reaches the final else and changes
nothing. -/
def errorListener (type0 data : String) (s : ErrState) :
    ErrState × List ErrOut :=
  let out0 := if jsIncludes data "Cloud"
    then [ErrOut.publishPanelStatusCall true]
    else [ErrOut.publishPanelStatusCall false]
  if jsIncludes type0 "CommsError" then
    if jsIncludes data "New socket being connected" then
      ({ s with reconnecting := true }, out0)
    else if jsIncludes data "Disconnected" then
      ({ s with socketListeners := false },
       out0 ++ [ErrOut.removeSocketListenersCall])
    else if jsIncludes data "No reconnection" then
      ({ s with socketListeners := false, reconnecting := false },
       out0 ++ [ErrOut.removeSocketListenersCall])
    else (s, out0)
  else
    if jsIncludes data "EHOSTUNREACH" then
      ({ s with panelReady := false, reconnecting := true }, out0)
    else if jsIncludes data "Cloud socket Closed" then
      let r := socketDisconnected true { s with panelReady := false }
      ({ r.1 with socketListeners := false, reconnecting := true },
       out0 ++ r.2 ++ [ErrOut.removeSocketListenersCall])
    else if jsIncludes data "ECONNRESET" then
      ({ s with reconnecting := true, socketListeners := false },
       out0 ++ [ErrOut.removeSocketListenersCall])
    else (s, out0)

/-! Theorems.  First a few evaluation lemmas for the closed string
computations appearing in the command codes. -/

@[simp] theorem jsIncludes_home_group :
    jsIncludes "armed_home" "group" = false := by decide

@[simp] theorem jsIncludes_away_group :
    jsIncludes "armed_away" "group" = false := by decide

@[simp] theorem jsIncludes_groupA_group :
    jsIncludes "armed_group_A" "group" = true := by decide

@[simp] theorem jsIncludes_groupB_group :
    jsIncludes "armed_group_B" "group" = true := by decide

@[simp] theorem jsIncludes_groupC_group :
    jsIncludes "armed_group_C" "group" = true := by decide

@[simp] theorem jsIncludes_groupD_group :
    jsIncludes "armed_group_D" "group" = true := by decide

@[simp] theorem jsIncludes_group_group :
    jsIncludes "armed_group" "group" = true := by decide

@[simp] theorem lastCharD_groupA : lastCharD "armed_group_A" 'A' = 'A' := by
  decide

@[simp] theorem lastCharD_groupB : lastCharD "armed_group_B" 'A' = 'B' := by
  decide

@[simp] theorem lastCharD_groupC : lastCharD "armed_group_C" 'A' = 'C' := by
  decide

@[simp] theorem lastCharD_groupD : lastCharD "armed_group_D" 'A' = 'D' := by
  decide

@[simp] theorem lastCharD_group : lastCharD "armed_group" 'A' = 'p' := by
  decide

/-- C1: refuted on the code.  An `armed_home` command for partition 1 whose
tracked ready status is false falls through the breakless switch into the
`armed_away` case: `panel.armAway(1)` is issued at the time the command is
received, while the request is simultaneously recorded as awaiting ready. -/
theorem armed_home_notReady_issues_armAway :
    (runSys [Ev.armCmd "armed_home" 1]).2
        = [OutMsg.armAction (ArmAction.armAway 1)]
      ∧ (runSys [Ev.armCmd "armed_home" 1]).1.awaitPartitionReady = true :=
  ⟨rfl, rfl⟩

/-- C2: an arm command received while the tracked ready status of the target
partition is true bypasses the retry state (the state is returned unchanged)
and exactly one corresponding device action is issued: `armHome`, `armAway`,
or `armGroup` with the group number of the requested letter. -/
theorem ready_arm_commands_bypass_retry (s : SysState) (partId : Nat)
    (h : s.partitionReadyStatus partId = true) :
    changeAlarmStatus "armed_home" partId s = (s, [ArmAction.armHome partId])
    ∧ changeAlarmStatus "armed_away" partId s = (s, [ArmAction.armAway partId])
    ∧ changeAlarmStatus "armed_group_A" partId s
        = (s, [ArmAction.armGroup partId (some 1)])
    ∧ changeAlarmStatus "armed_group_B" partId s
        = (s, [ArmAction.armGroup partId (some 2)])
    ∧ changeAlarmStatus "armed_group_C" partId s
        = (s, [ArmAction.armGroup partId (some 3)])
    ∧ changeAlarmStatus "armed_group_D" partId s
        = (s, [ArmAction.armGroup partId (some 4)]) := by
  refine ⟨?_, ?_, ?_, ?_, ?_, ?_⟩ <;>
    simp [changeAlarmStatus, h, groupLetterToNumber]

/-- Witness for C2 at a concrete ready state. -/
theorem ready_arm_commands_bypass_retry_witness :
    changeAlarmStatus "armed_home" 1
        { initSys with partitionReadyStatus := fun _ => true }
      = ({ initSys with partitionReadyStatus := fun _ => true },
         [ArmAction.armHome 1]) :=
  (ready_arm_commands_bypass_retry
    { initSys with partitionReadyStatus := fun _ => true } 1 rfl).1

/-- C3: refuted on the code.  After an `armed_group_D` request deferred on a
not ready partition 1, the `Ready` event for partition 1 resubmits the stored
code `armed_group`, whose last character `p` maps to no group, so
`armGroup(1, undefined)` is issued instead of group 4, and the 30 second
timer is still live afterwards because `clearTimeout` acted on a fresh local;
moreover a `Ready` event for the unrelated partition 2 also consumes the
outstanding request (second trace): the awaiting flag is cleared with no arm
action issued at all. -/
theorem ready_resubmission_loses_group_and_timer :
    ((runSys [Ev.armCmd "armed_group_D" 1, Ev.pEvent 1 "NotReady",
              Ev.pEvent 1 "Ready"]).2
        = [OutMsg.publishPartStatus 1, OutMsg.publishArming 1,
           OutMsg.publishPartStatus 1,
           OutMsg.armAction (ArmAction.armGroup 1 none)]
      ∧ (runSys [Ev.armCmd "armed_group_D" 1, Ev.pEvent 1 "NotReady",
                 Ev.pEvent 1 "Ready"]).1.timers = [(0, armingTimeoutMs)])
    ∧ ((runSys [Ev.armCmd "armed_group_D" 1, Ev.pEvent 1 "NotReady",
                Ev.pEvent 2 "Ready"]).2
        = [OutMsg.publishPartStatus 1, OutMsg.publishArming 1,
           OutMsg.publishPartStatus 2]
      ∧ (runSys [Ev.armCmd "armed_group_D" 1, Ev.pEvent 1 "NotReady",
                 Ev.pEvent 2 "Ready"]).1.awaitPartitionReady = false) :=
  ⟨⟨rfl, rfl⟩, rfl, rfl⟩

/-- The event trace exhibiting timer accumulation for claim C5. -/
def staleTimerTrace : List Ev :=
  [Ev.armCmd "armed_group_A" 1, Ev.pEvent 1 "NotReady", Ev.pEvent 1 "Ready",
   Ev.pEvent 1 "NotReady", Ev.armCmd "armed_group_B" 1,
   Ev.pEvent 1 "NotReady"]

/-- C5: refuted on the code.  Because the success path never cancels the
pending timer, a completed retry episode leaves its timer live; when a second
request for partition 1 then enters the awaiting state, a second timer is
started and two live timers exist for the one outstanding request, and the
stale first timer discards the new request when it fires. -/
theorem stale_arming_timer_accumulates :
    (runSys staleTimerTrace).1.awaitPartitionReady = true
    ∧ (runSys staleTimerTrace).1.timers
        = [(0, armingTimeoutMs), (1, armingTimeoutMs)]
    ∧ (fireTimer 0 (runSys staleTimerTrace).1).awaitPartitionReady = false :=
  ⟨rfl, rfl, rfl⟩

/-- C7, counterexample: the step receiving an `armed_group_A` command for the
not ready partition 1 records the request, but starts no timer and publishes
nothing, contradicting the claim that the same step starts the 30 second
timer and immediately publishes the transient arming status. -/
theorem arm_command_step_starts_no_timer :
    (runSys [Ev.armCmd "armed_group_A" 1]).1.awaitPartitionReady = true
    ∧ (runSys [Ev.armCmd "armed_group_A" 1]).1.partitionDetailId = some 1
    ∧ (runSys [Ev.armCmd "armed_group_A" 1]).1.partitionDetailType
        = some "armed_group"
    ∧ (runSys [Ev.armCmd "armed_group_A" 1]).1.timers = []
    ∧ (runSys [Ev.armCmd "armed_group_A" 1]).2 = [] :=
  ⟨rfl, rfl, rfl, rfl, rfl⟩

/-- C7, amended: the command step on a not ready partition only stores the
canonical code (rewritten to `armed_group` for group variants) and the target
id and raises the awaiting flag (for home it also erroneously issues
`armAway` through the switch fall through); the 30 second timer is started
and the transient arming status published by the handling of a subsequent
`NotReady` event while the request is outstanding and no timer flag is
set. -/
theorem arming_timer_started_on_notReady (s : SysState) (partId Id : Nat)
    (hready : s.partitionReadyStatus partId = false)
    (hawait : s.awaitPartitionReady = true)
    (htimer : s.armingTimer = false) :
    changeAlarmStatus "armed_group_A" partId s
        = ({ s with awaitPartitionReady := true,
                    partitionDetailId := some partId,
                    partitionDetailType := some "armed_group" }, [])
    ∧ changeAlarmStatus "armed_home" partId s
        = ({ s with awaitPartitionReady := true,
                    partitionDetailId := some partId,
                    partitionDetailType := some "armed_home" },
           [ArmAction.armAway partId])
    ∧ partitionListener Id "NotReady" s
        = ({ s with partitionReadyStatus :=
                      fun n => if n = Id then false
                               else s.partitionReadyStatus n,
                    armingTimer := true,
                    timers := s.timers ++ [(s.nextTimer, armingTimeoutMs)],
                    nextTimer := s.nextTimer + 1 },
           [OutMsg.publishPartStatus Id, OutMsg.publishArming Id]) := by
  refine ⟨?_, ?_, ?_⟩
  · simp [changeAlarmStatus, hready]
  · simp [changeAlarmStatus, hready]
  · simp [partitionListener, stateChangeEvents, hawait, htimer]

/-- Witness for the amended C7 at a concrete awaiting state. -/
theorem arming_timer_started_on_notReady_witness :
    (partitionListener 2 "NotReady"
      { initSys with awaitPartitionReady := true }).1.armingTimer = true := by
  have h := arming_timer_started_on_notReady
    { initSys with awaitPartitionReady := true } 1 2 rfl rfl rfl
  rw [h.2.2]

/-- C4: the arming mode record installed for a label is the field by field
merge of the partition default record with the override record configured
for that label: with no override the default is installed unchanged, and
with an override every field the override defines wins while every field it
omits falls back to the default, so each of the five canonical keys resolves
to exactly one native variant string. -/
theorem arming_modes_override_merge (c : ArmingModesSection) (L : String) :
    (c.labelOverride L = none →
      installedArmingModes c L = c.partitionDefault)
    ∧ (∀ o : ArmingConfig, c.labelOverride L = some o →
        installedArmingModes c L =
          { armed_away := o.armed_away.getD c.partitionDefault.armed_away
            armed_home := o.armed_home.getD c.partitionDefault.armed_home
            armed_night := o.armed_night.getD c.partitionDefault.armed_night
            armed_vacation :=
              o.armed_vacation.getD c.partitionDefault.armed_vacation
            armed_custom_bypass :=
              o.armed_custom_bypass.getD
                c.partitionDefault.armed_custom_bypass }) := by
  refine ⟨fun h => ?_, fun o h => ?_⟩ <;>
    simp [installedArmingModes, mergeArming, h]

/-- A concrete configuration in the README format: the default mapping plus
one override for the partition labelled House. -/
def demoArmingSection : ArmingModesSection :=
  { partitionDefault :=
      { armed_away := "armed_away"
        armed_home := "armed_home"
        armed_night := "armed_home"
        armed_vacation := "armed_away"
        armed_custom_bypass := "armed_home" }
    labelOverride := fun L =>
      if L = "House" then
        some { armed_custom_bypass := some "armed_group_A" }
      else none }

/-- Witness for C4: the override field wins and the omitted fields keep
their defaults. -/
theorem arming_modes_override_merge_witness :
    installedArmingModes demoArmingSection "House" =
      { armed_away := "armed_away"
        armed_home := "armed_home"
        armed_night := "armed_home"
        armed_vacation := "armed_away"
        armed_custom_bypass := "armed_group_A" } := by
  have h := (arming_modes_override_merge demoArmingSection "House").2
    { armed_custom_bypass := some "armed_group_A" } rfl
  rw [h]
  rfl

/-- The inductive invariant of the readiness gate: the guarded side effects
have happened at most once, and not at all while their flag is clear. -/
def GateInv (s : GateState) : Prop :=
  s.installCount ≤ 1 ∧ s.discoveryCount ≤ 1
  ∧ (s.listenerInstalled = false → s.installCount = 0)
  ∧ (s.initialized = false → s.discoveryCount = 0)

theorem gateInv_connected (s : GateState) (h : GateInv s) :
    GateInv (panelOrMqttConnected s) := by
  obtain ⟨h1, h2, h3, h4⟩ := h
  unfold panelOrMqttConnected GateInv
  cases hp : s.panelReady <;> cases hm : s.mqttReady <;>
    cases hi : s.initialized <;> cases hl : s.listenerInstalled <;>
      cases hs : s.socketListeners <;> simp_all

theorem gateInv_step (s : GateState) (e : GateEv) (h : GateInv s) :
    GateInv (stepGate s e) := by
  cases e with
  | systemInitComplete =>
      simp only [stepGate]
      split
      · exact gateInv_connected _ h
      · exact h
  | tcpDisconnected => exact h
  | mqttConnect =>
      simp only [stepGate]
      split
      · exact gateInv_connected _ h
      · exact h
  | mqttDown => exact h

theorem gateInv_run (es : List GateEv) :
    ∀ s : GateState, GateInv s → GateInv (es.foldl stepGate s) := by
  induction es with
  | nil => exact fun s h => h
  | cons e t ih => exact fun s h => ih _ (gateInv_step s e h)

theorem connected_listener_mono (s : GateState)
    (h : s.listenerInstalled = true) :
    (panelOrMqttConnected s).listenerInstalled = true := by
  unfold panelOrMqttConnected
  cases hp : s.panelReady <;> cases hm : s.mqttReady <;>
    cases hi : s.initialized <;> cases hs : s.socketListeners <;> simp_all

theorem listenerInstalled_mono (s : GateState) (e : GateEv)
    (h : s.listenerInstalled = true) :
    (stepGate s e).listenerInstalled = true := by
  cases e with
  | systemInitComplete =>
      simp only [stepGate]
      split
      · exact connected_listener_mono _ h
      · exact h
  | tcpDisconnected => exact h
  | mqttConnect =>
      simp only [stepGate]
      split
      · exact connected_listener_mono _ h
      · exact h
  | mqttDown => exact h

/-- C6: over every sequence of link lifecycle events the command topic and
device event subscriptions are installed at most once and the discovery
publication guarded by the initialized flag happens at most once, and the
listener installed flag is never reset by any event once it is true. -/
theorem listeners_installed_once (es : List GateEv) :
    ((runGate es).installCount ≤ 1 ∧ (runGate es).discoveryCount ≤ 1)
    ∧ ∀ s : GateState, s.listenerInstalled = true →
        ∀ e : GateEv, (stepGate s e).listenerInstalled = true := by
  constructor
  · have h := gateInv_run es initGate
      (by refine ⟨?_, ?_, ?_, ?_⟩ <;> simp [initGate])
    exact ⟨h.1, h.2.1⟩
  · exact fun s h e => listenerInstalled_mono s e h

/-- Witness for C6 on a run with two full link cycles. -/
theorem listeners_installed_once_witness :
    ((runGate [GateEv.systemInitComplete, GateEv.mqttConnect, GateEv.mqttDown,
               GateEv.tcpDisconnected, GateEv.mqttConnect]).installCount ≤ 1
      ∧ (runGate [GateEv.systemInitComplete, GateEv.mqttConnect,
                  GateEv.mqttDown, GateEv.tcpDisconnected,
                  GateEv.mqttConnect]).discoveryCount ≤ 1)
    ∧ (stepGate (runGate [GateEv.systemInitComplete, GateEv.mqttConnect,
                          GateEv.mqttDown, GateEv.tcpDisconnected,
                          GateEv.mqttConnect])
        GateEv.tcpDisconnected).listenerInstalled = true := by
  have h := listeners_installed_once
    [GateEv.systemInitComplete, GateEv.mqttConnect, GateEv.mqttDown,
     GateEv.tcpDisconnected, GateEv.mqttConnect]
  exact ⟨h.1, h.2 _ (by decide) GateEv.tcpDisconnected⟩

theorem find?_pair_cons (k v : String) (rest : List (String × String))
    (st : Option String) :
    ((((k, v) :: rest).find? (fun kv => some kv.2 == st)).map Prod.fst)
      = if some v = st then some k
        else ((rest.find? (fun kv => some kv.2 == st)).map Prod.fst) := by
  by_cases h : some v = st
  · rw [List.find?_cons_of_pos _ (by simpa using h), if_pos h]
    rfl
  · rw [List.find?_cons_of_neg _ (by simpa using h), if_neg h]

/-- C8: the published alarm payload is `triggered` when the alarm flag is
set, `disarmed` when no native arm flag is set, and otherwise the reverse
lookup of the projected native state through the partition arming mode
record; the reverse lookup scans the five canonical keys in insertion order
and returns the first key whose native value matches, so an ambiguous
mapping resolves to the earlier key. -/
theorem alarmPayload_projection (p : Partition) (m : ArmingModes) :
    (p.Alarm = true → alarmPayload p m = some "triggered")
    ∧ (p.Alarm = false →
        (!p.Arm && !p.HomeStay && !p.GrpAArm && !p.GrpBArm
          && !p.GrpCArm && !p.GrpDArm) = true →
        alarmPayload p m = some "disarmed")
    ∧ (p.Alarm = false →
        (!p.Arm && !p.HomeStay && !p.GrpAArm && !p.GrpBArm
          && !p.GrpCArm && !p.GrpDArm) = false →
        alarmPayload p m = reverseArmingLookup m (returnPanelAlarmState p))
    ∧ (∀ s0 : String, reverseArmingLookup m (some s0) =
        if m.armed_away = s0 then some "armed_away"
        else if m.armed_home = s0 then some "armed_home"
        else if m.armed_night = s0 then some "armed_night"
        else if m.armed_vacation = s0 then some "armed_vacation"
        else if m.armed_custom_bypass = s0 then some "armed_custom_bypass"
        else none) := by
  refine ⟨fun h => ?_, fun h h2 => ?_, fun h h2 => ?_, fun s0 => ?_⟩
  · simp [alarmPayload, h]
  · simp [alarmPayload, h, h2]
  · simp [alarmPayload, h, h2]
  · show ((armingPairs m).find? (fun kv => some kv.2 == some s0)).map
        Prod.fst = _
    unfold armingPairs
    rw [find?_pair_cons, find?_pair_cons, find?_pair_cons, find?_pair_cons,
        find?_pair_cons]
    simp

/-- Witness for C8: an ambiguous record mapping both the away and the night
keys to the same native value resolves to the earlier key, and the flag
shortcuts hold on a concrete partition. -/
theorem alarmPayload_projection_witness :
    alarmPayload
        { Id := 1, Label := "House", Arm := false, HomeStay := false,
          GrpAArm := false, GrpBArm := false, GrpCArm := false,
          GrpDArm := false, Alarm := true, Ready := false }
        { armed_away := "armed_away", armed_home := "armed_home",
          armed_night := "armed_away", armed_vacation := "armed_away",
          armed_custom_bypass := "armed_home" } = some "triggered"
    ∧ reverseArmingLookup
        { armed_away := "armed_away", armed_home := "armed_home",
          armed_night := "armed_away", armed_vacation := "armed_away",
          armed_custom_bypass := "armed_home" }
        (some "armed_away") = some "armed_away" := by
  constructor
  · exact (alarmPayload_projection _ _).1 rfl
  · rw [(alarmPayload_projection
      { Id := 1, Label := "House", Arm := false, HomeStay := false,
        GrpAArm := false, GrpBArm := false, GrpCArm := false,
        GrpDArm := false, Alarm := true, Ready := false } _).2.2.2
      "armed_away"]
    rfl

/-- C9, counterexample: a connection reset signal sets the reconnect flag
but does not mark the device link down, refuting the claim that both
host unreachable and connection reset mark the link down. -/
theorem econnreset_leaves_link_up :
    (errorListener "SocketError" "ECONNRESET"
        { panelReady := true, reconnecting := false,
          socketListeners := true }).1.panelReady = true
    ∧ (errorListener "SocketError" "ECONNRESET"
        { panelReady := true, reconnecting := false,
          socketListeners := true }).1.reconnecting = true :=
  ⟨rfl, rfl⟩

@[simp] theorem jsIncludes_socketError_comms :
    jsIncludes "SocketError" "CommsError" = false := by decide

/-- C9, amended: a host unreachable signal marks the device link down and
flags a reconnect, a connection reset signal flags a reconnect and removes
the socket listeners while leaving the link marked up, unrecognized error
data leaves the state unchanged and only publishes the link status, and no
branch of the classifier ever performs a connect itself. -/
theorem errorListener_classification (s : ErrState) (data : String)
    (h1 : jsIncludes data "Cloud" = false)
    (h2 : jsIncludes data "EHOSTUNREACH" = false)
    (h3 : jsIncludes data "Cloud socket Closed" = false)
    (h4 : jsIncludes data "ECONNRESET" = false) :
    errorListener "SocketError" "EHOSTUNREACH" s
        = ({ s with panelReady := false, reconnecting := true },
           [ErrOut.publishPanelStatusCall false])
    ∧ errorListener "SocketError" "ECONNRESET" s
        = ({ s with reconnecting := true, socketListeners := false },
           [ErrOut.publishPanelStatusCall false,
            ErrOut.removeSocketListenersCall])
    ∧ errorListener "SocketError" data s
        = (s, [ErrOut.publishPanelStatusCall false])
    ∧ ∀ t d : String, ErrOut.connectCall ∉ (errorListener t d s).2 := by
  refine ⟨rfl, rfl, ?_, ?_⟩
  · simp [errorListener, h1, h2, h3, h4]
  · intro t d
    unfold errorListener socketDisconnected
    repeat' split
    all_goals simp_all

/-- Witness for the amended C9 at concrete unrecognized data. -/
theorem errorListener_classification_witness :
    errorListener "SocketError" "whatever"
        { panelReady := true, reconnecting := false,
          socketListeners := true }
      = ({ panelReady := true, reconnecting := false,
           socketListeners := true },
         [ErrOut.publishPanelStatusCall false]) :=
  (errorListener_classification
    { panelReady := true, reconnecting := false, socketListeners := true }
    "whatever" (by decide) (by decide) (by decide) (by decide)).2.2.1

/-- C10: the native state projection resolves simultaneously set arm flags
in the fixed priority order away, home stay, group A, group B, group C,
group D, and in particular whenever the away flag is set the projected state
is `armed_away` regardless of every other flag. -/
theorem returnPanelAlarmState_priority (p : Partition) :
    returnPanelAlarmState p
        = ((nativePriorityPairs p).find? (fun x => x.1)).map (fun x => x.2)
    ∧ (p.Arm = true → returnPanelAlarmState p = some "armed_away") := by
  constructor
  · obtain ⟨i, l, a, hs, ga, gb, gc, gd, al, r⟩ := p
    cases a <;> cases hs <;> cases ga <;> cases gb <;> cases gc <;>
      cases gd <;> rfl
  · intro h
    simp [returnPanelAlarmState, h]

/-- Witness for C10: a partition with every native flag set projects to
`armed_away`. -/
theorem returnPanelAlarmState_priority_witness :
    returnPanelAlarmState
        { Id := 1, Label := "House", Arm := true, HomeStay := true,
          GrpAArm := true, GrpBArm := true, GrpCArm := true,
          GrpDArm := true, Alarm := false, Ready := false }
      = some "armed_away" :=
  (returnPanelAlarmState_priority _).2 rfl

end RiscoMqtt
